import Mathlib

/-
Verification of the PDF-learner RAG backend.

Shallow embedding of the core pipeline of the repository:
  backend/chat_bot.py          (collection-name sanitizer, page chunker,
                                retrieval, answer synthesis)
  backend/ai_providers/manager.py        (provider manager, usage stats)
  backend/ai_providers/openai_adapter.py (static model catalog, request
                                          validation)
  backend/ai_providers/base.py           (data classes, error taxonomy)

Python strings are modelled as Lean String / List Char; Python floats as
rationals; Python dicts as association lists; fallible calls as Except.
External collaborators (the hashlib md5 digest, the ChromaDB collection
query, the OpenAI network endpoint, the provider adapters seen from the
manager) are abstracted as explicit function parameters, so that theorems
quantify over every possible behaviour of the collaborator.
-/

namespace PdfLearner

/-! ## Character classes used by the sanitizer (chat_bot.py lines 86-129) -/

/-- Characters kept by the regex substitution r-squarebracket-caret
a-zA-Z0-9._- : ASCII letters, digits, dot, underscore, hyphen.
Everything else is replaced by an underscore. -/
def isAllowedChar (c : Char) : Bool :=
  c.isAlpha || c.isDigit || c = '.' || c = '_' || c = '-'

/-- ASCII alphanumeric, the class a-zA-Z0-9 of the final validation regex. -/
def isAlnumChar (c : Char) : Bool :=
  c.isAlpha || c.isDigit

/-- Lowercase hexadecimal digit, the alphabet of hashlib md5 hexdigest. -/
def isHexChar (c : Char) : Bool :=
  "0123456789abcdef".toList.contains c

/-! ## The sanitizer pipeline, step by step -/

/-- Step 0 of the sanitizer: file_name.replace of the pattern .pdf by the
empty string.  Python str.replace removes every occurrence, scanning left
to right, non-overlapping. -/
def removeDotPdf : List Char → List Char
  | [] => []
  | '.' :: 'p' :: 'd' :: 'f' :: rest => removeDotPdf rest
  | c :: rest => c :: removeDotPdf rest

/-- Step 1: the per-character substitution done by re.sub with the negated
class of isAllowedChar, replacement underscore. -/
def subChar (c : Char) : Char :=
  if isAllowedChar c then c else '_'

/-- Step 2: re.sub collapsing every run of underscores to one underscore.
A character is dropped exactly when it is an underscore followed by
another underscore, which keeps the last underscore of each run. -/
def collapseUnd : List Char → List Char
  | [] => []
  | [c] => [c]
  | c :: d :: rest =>
    if c = '_' && d = '_' then collapseUnd (d :: rest)
    else c :: collapseUnd (d :: rest)

/-- Helper: drop trailing characters satisfying p. -/
def dropTrailing (p : Char → Bool) (cs : List Char) : List Char :=
  (cs.reverse.dropWhile p).reverse

/-- Step 3: Python strip applied with the single character underscore. -/
def stripUnd (cs : List Char) : List Char :=
  dropTrailing (fun c => c = '_') (cs.dropWhile (fun c => c = '_'))

/-- Steps 0-3 of _sanitize_collection_name: extension removal, character
substitution, underscore collapsing, underscore stripping. -/
def sanitizeCore (file_name : String) : List Char :=
  stripUnd (collapseUnd ((removeDotPdf file_name.toList).map subChar))

/-- The final validation regex of step 6, anchored match of
caret a-zA-Z0-9 dot-star a-zA-Z0-9 dollar.  On a string free of newline
characters (always the case at this program point: every candidate is
built from doc_, sanitized characters and hex digits) this holds exactly
when the string has length at least two and its first and last characters
are ASCII alphanumeric; the dot-star additionally refuses interior
newlines, which we model faithfully. -/
def finalCheckOk (cs : List Char) : Bool :=
  match cs with
  | [] => false
  | c :: rest =>
    match rest.getLast? with
    | none => false
    | some d => isAlnumChar c && isAlnumChar d && rest.dropLast.all (fun x => x ≠ '\n')

/-- The doc_ tag prepended by the sanitizer. -/
def docTag : List Char := ['d', 'o', 'c', '_']

/-- The md5-hexdigest prefix of length 8 used by the sanitizer is an
external library call (hashlib).  We model it as an arbitrary function
parameter; HashOk states its interface contract: eight lowercase hex
characters, deterministically derived from the input. -/
def HashOk (md5hex8 : String → String) : Prop :=
  ∀ s : String, (md5hex8 s).toList.length = 8 ∧
    ∀ c ∈ (md5hex8 s).toList, isHexChar c = true

/-- chat_bot.py lines 86-129, _sanitize_collection_name.  The md5hex8
parameter stands for hashlib.md5(name.encode).hexdigest() truncated to 8
characters. -/
def sanitize_collection_name (md5hex8 : String → String) (file_name : String) : String :=
  let core := sanitizeCore file_name
  let safe1 : List Char :=
    if core.length < 3 then docTag ++ (md5hex8 file_name).toList
    else docTag ++ core
  let safe2 : List Char :=
    if 100 < safe1.length then
      docTag ++ safe1.take 50 ++ '_' :: (md5hex8 file_name).toList
    else safe1
  if finalCheckOk safe2 then safe2.asString
  else (docTag ++ (md5hex8 file_name).toList).asString

/-! ## The page chunker (chat_bot.py lines 220-236, _split_page_text) -/

/-- The characters Python str.isspace holds true, which is exactly what
str.strip() with no argument removes: the ASCII whitespace characters
tab through carriage return (including vertical tab and form feed), the
information separators 28-31, space, next line, no-break space, ogham
space mark, the en-quad through hair-space range 8192-8202, line and
paragraph separator, narrow no-break space, medium mathematical space
and ideographic space. -/
def pyIsSpace (c : Char) : Bool :=
  (9 ≤ c.toNat && c.toNat ≤ 13) || (28 ≤ c.toNat && c.toNat ≤ 31)
    || c.toNat = 32 || c.toNat = 133 || c.toNat = 160 || c.toNat = 5760
    || (8192 ≤ c.toNat && c.toNat ≤ 8202) || c.toNat = 8232
    || c.toNat = 8233 || c.toNat = 8239 || c.toNat = 8287 || c.toNat = 12288

/-- Python str.strip with no argument: remove leading and trailing
whitespace. -/
def pyStrip (cs : List Char) : List Char :=
  dropTrailing pyIsSpace (cs.dropWhile pyIsSpace)

/-- The sentence separator used by _split_page_text: dot space. -/
def dotSpace : List Char := ['.', ' ']

/-- Helper for splitDotSpace: extend the first piece of a split. -/
def consFirst (c : Char) : List (List Char) → List (List Char)
  | [] => [[c]]
  | h :: t => (c :: h) :: t

/-- Python text.split of the two-character separator dot space: greedy
left-to-right scan for non-overlapping occurrences. -/
def splitDotSpace : List Char → List (List Char)
  | [] => [[]]
  | [c] => [[c]]
  | c :: d :: rest =>
    if c = '.' && d = ' ' then [] :: splitDotSpace rest
    else consFirst c (splitDotSpace (d :: rest))

/-- The dot-space separator placed between consecutive split pieces:
rejoining the pieces of splitDotSpace with interDotSpace reconstructs the
original text, which makes every comparison value of the accumulation
loop below a prefix of that text. -/
def interDotSpace : List (List Char) → List Char
  | [] => []
  | [s] => s
  | s :: r :: rest => s ++ dotSpace ++ interDotSpace (r :: rest)

/-- The accumulation loop of _split_page_text: for each sentence, if the
current chunk would exceed chunk_size (and is non-empty, Python
truthiness), flush the stripped current chunk and restart from the
sentence; either way the sentence plus dot space is accumulated. -/
def splitChunksLoop (chunk_size : Nat) :
    List (List Char) → List (List Char) → List Char → List (List Char) × List Char
  | [], chunks, current => (chunks, current)
  | s :: rest, chunks, current =>
    if chunk_size < (current ++ s).length && !current.isEmpty then
      splitChunksLoop chunk_size rest (chunks ++ [pyStrip current]) (s ++ dotSpace)
    else
      splitChunksLoop chunk_size rest chunks (current ++ s ++ dotSpace)

/-- chat_bot.py _split_page_text(text, chunk_size=500). -/
def splitPageText (text : String) (chunk_size : Nat := 500) : List String :=
  let sentences := splitDotSpace text.toList
  let result := splitChunksLoop chunk_size sentences [] []
  let final := pyStrip result.2
  (if final.isEmpty then result.1 else result.1 ++ [final]).map List.asString

/-! ## Retrieval and answer synthesis (chat_bot.py lines 264-446) -/

/-- A formatted search hit as produced by _format_search_results: chunk
text, provenance metadata and the vector distance reported by the index.
Python stores a redundant similarity field computed as 1.0 - distance,
which we expose through the chunkSimilarity function below.  The dynamic
string-or-int page_number default is modelled as an Option. -/
structure SChunk where
  content : String
  file_name : String
  page_number : Option Nat
  source : String
  distance : ℚ
deriving DecidableEq

/-- The similarity score attached by _format_search_results. -/
def chunkSimilarity (c : SChunk) : ℚ := 1 - c.distance

/-- Python round(x, 3): nearest multiple of one thousandth.  Exact ties
round to even under IEEE semantics; the claims under verification never
evaluate at a tie, so the rounding direction at ties is immaterial here. -/
def round3 (q : ℚ) : ℚ := (round (q * 1000) : ℚ) / 1000

/-- The ordering key of _search_relevant_chunks: the distance field (every
formatted chunk carries one). -/
def chunkLE (a b : SChunk) : Prop := a.distance ≤ b.distance

instance : DecidableRel chunkLE :=
  fun a b => inferInstanceAs (Decidable (a.distance ≤ b.distance))

instance : IsTotal SChunk chunkLE := ⟨fun a b => le_total a.distance b.distance⟩

instance : IsTrans SChunk chunkLE := ⟨fun _ _ _ h1 h2 => le_trans h1 h2⟩

/-- chat_bot.py lines 303-345, _search_relevant_chunks.  The query
parameter abstracts the composite of chroma_client.get_collection,
collection.query on the embedded question, and _format_search_results:
given a collection name and the n_results budget it yields the formatted
hits.  A collection whose query raises (caught and skipped by the code)
corresponds to an oracle returning no hits.  active is the
active_collections dict as an insertion-ordered association list from
document name to collection name.  Python list.sort and Lean
insertionSort are both stable, so they agree on the key-sorted output. -/
def searchRelevantChunks (query : String → Nat → List SChunk)
    (active : List (String × String)) (file_name : Option String)
    (top_k : Nat) : List SChunk :=
  let allHits : List SChunk :=
    (active.map (fun p => query p.2 (max 1 (top_k / active.length)))).flatten
  let hits : List SChunk :=
    match file_name with
    | some fn =>
      if fn.isEmpty then allHits
      else
        match active.lookup fn with
        | some coll => query coll top_k
        | none => allHits
    | none => allHits
  (List.insertionSort chunkLE hits).take top_k

/-- A source citation entry of the answer dictionary. -/
structure SourceCite where
  file_name : String
  page_number : Option Nat
  source : String
  similarity : ℚ
deriving DecidableEq

/-- The citation built for one retrieved chunk (similarity rounded to
three decimals). -/
def citeOf (c : SChunk) : SourceCite :=
  { file_name := c.file_name
    page_number := c.page_number
    source := c.source
    similarity := round3 (chunkSimilarity c) }

/-- The answer dictionary returned by answer_question and
_generate_answer_with_ai.  context_used is present only on the success
path, hence an Option. -/
structure AnswerData where
  answer : String
  sources : List SourceCite
  confidence : ℚ
  context_used : Option Nat
deriving DecidableEq

/-- The numbered context block built for one retrieved chunk. -/
def contextPart (i : Nat) (c : SChunk) : String :=
  "[출처 " ++ toString (i + 1) ++ ": " ++ c.source ++ "]\n" ++ c.content

/-- The grounded prompt assembled by _generate_answer_with_ai. -/
def buildPrompt (question : String) (relevant_chunks : List SChunk) : String :=
  let context := String.intercalate "\n\n"
    ((relevant_chunks.enum.map (fun p => contextPart p.1 p.2)))
  "\n다음 문서 내용을 바탕으로 사용자의 질문에 정확하고 도움이 되는 답변을 해주세요.\n\n문서 내용:\n"
    ++ context
    ++ "\n\n사용자 질문: " ++ question
    ++ "\n\n답변 시 다음 사항을 지켜주세요:\n1. 문서에 있는 정보만을 기반으로 답변하세요\n2. 구체적이고 명확하게 설명하세요\n3. 문서에 없는 내용은 추측하지 마세요\n4. 도움이 되는 추가 설명을 포함하세요\n\n답변:\n"

/-- The fallback answer of the exception handler of
_generate_answer_with_ai. -/
def generationFailedAnswer : String := "죄송합니다. 답변 생성 중 오류가 발생했습니다."

/-- The fixed answer returned when retrieval yields nothing. -/
def noInfoAnswer : String := "죄송합니다. 업로드된 PDF 문서에서 관련 정보를 찾을 수 없습니다."

/-- chat_bot.py lines 371-446, _generate_answer_with_ai.  The gen
parameter abstracts the model invocation (AI manager or legacy client):
from the assembled prompt it yields either the generated answer text or a
failure.  The source list and the prompt are fully computed before the
model call, so on model failure the handler returns the complete computed
source list (the sources-in-locals test succeeds) with the fallback
answer and confidence zero; no exception escapes. -/
def generateAnswerWithAI (gen : String → Except String String)
    (question : String) (relevant_chunks : List SChunk) : AnswerData :=
  let sources := relevant_chunks.map citeOf
  let prompt := buildPrompt question relevant_chunks
  match gen prompt with
  | Except.ok answer =>
    let confidence : ℚ :=
      if relevant_chunks.isEmpty then 0
      else (relevant_chunks.map chunkSimilarity).sum / relevant_chunks.length
    { answer := answer
      sources := sources
      confidence := round3 confidence
      context_used := some relevant_chunks.length }
  | Except.error _ =>
    { answer := generationFailedAnswer
      sources := sources
      confidence := 0
      context_used := none }

/-- chat_bot.py lines 264-301, answer_question.  search abstracts
_search_relevant_chunks (question, file_name, top_k to formatted hits;
that function catches its own exceptions and returns the empty list on
failure).  The Bool component records whether the answer-generation step
(the only site invoking the text-generation provider) was entered. -/
def answerQuestion (search : String → Option String → Nat → List SChunk)
    (gen : String → Except String String) (question : String)
    (file_name : Option String) (top_k : Nat) : AnswerData × Bool :=
  let relevant_chunks := search question file_name top_k
  if relevant_chunks.isEmpty then
    ({ answer := noInfoAnswer, sources := [], confidence := 0, context_used := none }, false)
  else
    (generateAnswerWithAI gen question relevant_chunks, true)

/-! ## Provider data model (ai_providers/base.py) -/

/-- base.py ModelInfo dataclass. -/
structure ModelInfo where
  id : String
  name : String
  description : String
  provider : String
  type : String
  max_tokens : Nat
  cost_per_1k_tokens : ℚ
  supports_streaming : Bool
deriving DecidableEq

/-- base.py GenerationResult dataclass; the dynamic metadata dict is an
association list of strings. -/
structure GenerationResult where
  text : String
  model : String
  tokens_used : Nat
  cost : ℚ
  metadata : List (String × String)
deriving DecidableEq

/-- base.py EmbeddingResult dataclass. -/
structure EmbeddingResult where
  embeddings : List (List ℚ)
  model : String
  tokens_used : Nat
  cost : ℚ
  dimension : Nat
deriving DecidableEq

/-- base.py error taxonomy: AIProviderError and its three subclasses,
each carrying the message and the optional provider tag. -/
inductive ProviderErr where
  | providerError (message : String) (provider : Option String)
  | unsupportedModel (message : String) (provider : Option String)
  | connectionFail (message : String) (provider : Option String)
  | rateLimit (message : String) (provider : Option String)
deriving DecidableEq

/-- The message carried by a ProviderErr, as Python str(e) reads it. -/
def ProviderErr.message : ProviderErr → String
  | ProviderErr.providerError m _ => m
  | ProviderErr.unsupportedModel m _ => m
  | ProviderErr.connectionFail m _ => m
  | ProviderErr.rateLimit m _ => m

/-! ## The OpenAI adapter (ai_providers/openai_adapter.py) -/

/-- openai_adapter.py AVAILABLE_MODELS: the static text-generation
catalog. -/
def AVAILABLE_MODELS : List ModelInfo :=
  [ { id := "gpt-3.5-turbo", name := "GPT-3.5 Turbo",
      description := "빠르고 효율적인 대화형 AI 모델", provider := "openai",
      type := "text", max_tokens := 4096, cost_per_1k_tokens := 0.001,
      supports_streaming := true },
    { id := "gpt-3.5-turbo-16k", name := "GPT-3.5 Turbo 16K",
      description := "긴 컨텍스트를 지원하는 GPT-3.5", provider := "openai",
      type := "text", max_tokens := 16384, cost_per_1k_tokens := 0.003,
      supports_streaming := true },
    { id := "gpt-4", name := "GPT-4",
      description := "고성능 AI 모델", provider := "openai",
      type := "text", max_tokens := 8192, cost_per_1k_tokens := 0.03,
      supports_streaming := true },
    { id := "gpt-4-turbo-preview", name := "GPT-4 Turbo",
      description := "향상된 성능의 GPT-4", provider := "openai",
      type := "text", max_tokens := 128000, cost_per_1k_tokens := 0.01,
      supports_streaming := true } ]

/-- openai_adapter.py EMBEDDING_MODELS: the static embedding catalog. -/
def EMBEDDING_MODELS : List ModelInfo :=
  [ { id := "text-embedding-ada-002", name := "Ada Embedding v2",
      description := "범용 임베딩 모델", provider := "openai",
      type := "embedding", max_tokens := 8191, cost_per_1k_tokens := 0.0001,
      supports_streaming := false },
    { id := "text-embedding-3-small", name := "Embedding v3 Small",
      description := "효율적인 임베딩 모델", provider := "openai",
      type := "embedding", max_tokens := 8191, cost_per_1k_tokens := 0.00002,
      supports_streaming := false },
    { id := "text-embedding-3-large", name := "Embedding v3 Large",
      description := "고성능 임베딩 모델", provider := "openai",
      type := "embedding", max_tokens := 8191, cost_per_1k_tokens := 0.00013,
      supports_streaming := false } ]

/-- get_available_models: text catalog followed by embedding catalog. -/
def openaiAllModels : List ModelInfo := AVAILABLE_MODELS ++ EMBEDDING_MODELS

/-- The mutable fields of an OpenAIAdapter instance that the request
paths read. -/
structure OpenAIAdapterState where
  is_initialized : Bool
  default_model : String
  default_embedding_model : String
  max_tokens : Nat
  temperature : ℚ

/-- Python falsy-or on an optional string argument: a missing or empty
string falls back to the default. -/
def pyStrOr (o : Option String) (d : String) : String :=
  match o with
  | some s => if s.isEmpty then d else s
  | none => d

/-- Python falsy-or on an optional integer argument: a missing or zero
value falls back to the default. -/
def pyNatOr (o : Option Nat) (d : Nat) : Nat :=
  match o with
  | some 0 => d
  | some n => n
  | none => d

/-- Python str.strip as a String operation. -/
def pyStripS (s : String) : String := (pyStrip s.toList).asString

/-- What the external OpenAI chat-completion endpoint may do: answer, or
fail with a rate-limit error, or fail in any other way. -/
inductive NetOutcome (α : Type) where
  | ok (response : α)
  | rateLimited (message : String)
  | failed (message : String)

/-- The fields of a chat-completion response read by the adapter; the
usage block is optional in the API response. -/
structure NetChatResponse where
  content : String
  total_tokens : Option Nat
  finish_reason : String
  response_id : String

/-- The fields of an embeddings response read by the adapter. -/
structure NetEmbResponse where
  embeddings : List (List ℚ)
  total_tokens : Option Nat

/-- openai_adapter.py lines 145-209, generate_text.  net abstracts
client.chat.completions.create, applied to the resolved model, token
limit and temperature.  The Bool component records whether the network
endpoint was invoked. -/
def adapter_generate_text
    (net : String → Nat → ℚ → NetOutcome NetChatResponse)
    (st : OpenAIAdapterState) (modelArg : Option String)
    (maxTokensArg : Option Nat) (temperatureArg : Option ℚ) :
    Except ProviderErr GenerationResult × Bool :=
  if !st.is_initialized then
    (Except.error (ProviderErr.connectionFail "OpenAI 어댑터가 초기화되지 않았습니다." (some "openai")), false)
  else
    let model := pyStrOr modelArg st.default_model
    let max_tokens := pyNatOr maxTokensArg st.max_tokens
    let temperature := temperatureArg.getD st.temperature
    let text_models := AVAILABLE_MODELS.filter (fun m => m.type == "text")
    if !(text_models.any (fun m => m.id == model)) then
      (Except.error (ProviderErr.unsupportedModel ("지원되지 않는 모델입니다: " ++ model) (some "openai")), false)
    else
      match net model max_tokens temperature with
      | NetOutcome.ok resp =>
        let tokens_used := resp.total_tokens.getD 0
        let cost : ℚ :=
          match text_models.find? (fun m => m.id == model) with
          | some mi => (tokens_used : ℚ) / 1000 * mi.cost_per_1k_tokens
          | none => 0
        (Except.ok
          { text := pyStripS resp.content, model := model,
            tokens_used := tokens_used, cost := cost,
            metadata := [("finish_reason", resp.finish_reason),
                         ("response_id", resp.response_id)] }, true)
      | NetOutcome.rateLimited m =>
        (Except.error (ProviderErr.rateLimit ("OpenAI API 사용량 제한: " ++ m) (some "openai")), true)
      | NetOutcome.failed m =>
        (Except.error (ProviderErr.connectionFail ("OpenAI API 호출 실패: " ++ m) (some "openai")), true)

/-- openai_adapter.py lines 211-260, generate_embeddings.  net abstracts
client.embeddings.create applied to the resolved model. -/
def adapter_generate_embeddings
    (net : String → NetOutcome NetEmbResponse)
    (st : OpenAIAdapterState) (modelArg : Option String) :
    Except ProviderErr EmbeddingResult × Bool :=
  if !st.is_initialized then
    (Except.error (ProviderErr.connectionFail "OpenAI 어댑터가 초기화되지 않았습니다." (some "openai")), false)
  else
    let model := pyStrOr modelArg st.default_embedding_model
    let embedding_models := EMBEDDING_MODELS.filter (fun m => m.type == "embedding")
    match embedding_models.find? (fun m => m.id == model) with
    | none =>
      (Except.error (ProviderErr.unsupportedModel ("지원되지 않는 임베딩 모델입니다: " ++ model) (some "openai")), false)
    | some mi =>
      match net model with
      | NetOutcome.ok resp =>
        let tokens_used := resp.total_tokens.getD 0
        (Except.ok
          { embeddings := resp.embeddings, model := model,
            tokens_used := tokens_used,
            cost := (tokens_used : ℚ) / 1000 * mi.cost_per_1k_tokens,
            dimension := (resp.embeddings.head?.map List.length).getD 0 }, true)
      | NetOutcome.rateLimited m =>
        (Except.error (ProviderErr.rateLimit ("OpenAI API 사용량 제한: " ++ m) (some "openai")), true)
      | NetOutcome.failed m =>
        (Except.error (ProviderErr.connectionFail ("OpenAI 임베딩 API 호출 실패: " ++ m) (some "openai")), true)

/-! ## The provider manager (ai_providers/manager.py) -/

/-- Per-provider usage counters (manager.py register_provider lines
65-70). -/
structure ProviderStats where
  text_requests : Nat
  embedding_requests : Nat
  tokens_used : Nat
  cost : ℚ
deriving DecidableEq

/-- The usage_stats dictionary of AIProviderManager. -/
structure UsageStats where
  total_text_requests : Nat
  total_embedding_requests : Nat
  total_tokens_used : Nat
  total_cost : ℚ
  provider_stats : List (String × ProviderStats)
deriving DecidableEq

/-- What the manager observes of a registered adapter: the availability
probe (is_available at the moment of the call) and the static model
catalog returned by get_available_models. -/
structure ProviderInfo where
  available : Bool
  models : List ModelInfo
deriving DecidableEq

/-- The mutable state of AIProviderManager.  providers is the
insertion-ordered registry dict; a provider reaches the registry only
after register_provider validated and initialized it, which also seeds
its provider_stats entry. -/
structure ManagerState where
  providers : List (String × ProviderInfo)
  current_provider : Option String
  current_text_model : Option String
  current_embedding_model : Option String
  usage_stats : UsageStats
deriving DecidableEq

/-- manager.py get_current_provider: the current name must be set (Python
truthiness: the names registered are non-empty strings) and present in
the registry. -/
def getCurrentProvider (st : ManagerState) : Option ProviderInfo :=
  match st.current_provider with
  | some p => if p.isEmpty then none else st.providers.lookup p
  | none => none

/-- Update one provider's entry of the stats dict.  Python indexes the
dict directly; the entry exists for every provider that can be current
because register_provider seeds it, so the missing-key branch (a KeyError
in Python) is unreachable and modelled as the identity. -/
def updateProvStats (ps : List (String × ProviderStats)) (name : String)
    (f : ProviderStats → ProviderStats) : List (String × ProviderStats) :=
  ps.map (fun p => if p.1 == name then (p.1, f p.2) else p)

/-- manager.py lines 327-347, _update_usage_stats. -/
def updateUsageStats (st : ManagerState) (request_type : String)
    (tokens_used : Nat) (cost : ℚ) : UsageStats :=
  let u := st.usage_stats
  let u :=
    if request_type == "text" then
      { u with total_text_requests := u.total_text_requests + 1 }
    else if request_type == "embedding" then
      { u with total_embedding_requests := u.total_embedding_requests + 1 }
    else u
  let u := { u with total_tokens_used := u.total_tokens_used + tokens_used,
                    total_cost := u.total_cost + cost }
  match st.current_provider with
  | some p =>
    if p.isEmpty then u
    else
      { u with provider_stats := (updateProvStats u.provider_stats p
          (fun s =>
            let s :=
              if request_type == "text" then
                { s with text_requests := s.text_requests + 1 }
              else if request_type == "embedding" then
                { s with embedding_requests := s.embedding_requests + 1 }
              else s
            { s with tokens_used := s.tokens_used + tokens_used,
                     cost := s.cost + cost })) }
  | none => u

/-- manager.py lines 83-115, switch_provider: fails on an unregistered
name or an unavailable adapter; on success sets the current provider and
resets the current text and embedding models to the first catalog entry
of each capability type (leaving them untouched when the catalog has none
of that type). -/
def switch_provider (st : ManagerState) (provider_name : String) :
    Bool × ManagerState :=
  match st.providers.lookup provider_name with
  | none => (false, st)
  | some info =>
    if !info.available then (false, st)
    else
      let st := { st with current_provider := some provider_name }
      let text_models := info.models.filter (fun m => m.type == "text")
      let embedding_models := info.models.filter (fun m => m.type == "embedding")
      let st :=
        match text_models.head? with
        | some m => { st with current_text_model := some m.id }
        | none => st
      let st :=
        match embedding_models.head? with
        | some m => { st with current_embedding_model := some m.id }
        | none => st
      (true, st)

/-- Python model_spec.split(":", 1): the part before and after the first
colon. -/
def splitColon1 (spec : String) : String × String :=
  let before := spec.toList.takeWhile (fun c => c ≠ ':')
  let after := (spec.toList.dropWhile (fun c => c ≠ ':')).drop 1
  (before.asString, after.asString)

/-- The validation half of set_text_model (manager.py lines 192-205):
check the resolved model id against the current provider's text catalog
and record it on success. -/
def setTextModelCore (st : ManagerState) (model_id : String) :
    Bool × ManagerState :=
  match getCurrentProvider st with
  | none => (false, st)
  | some info =>
    let text_models := info.models.filter (fun m => m.type == "text" && m.id == model_id)
    if text_models.isEmpty then (false, st)
    else (true, { st with current_text_model := some model_id })

/-- manager.py lines 173-208, set_text_model.  On a provider:model
composite naming a registered provider, switch_provider runs first and
its Boolean result is discarded, exactly as in the source. -/
def set_text_model (st : ManagerState) (model_spec : String) :
    Bool × ManagerState :=
  if model_spec.toList.contains ':' then
    let pm := splitColon1 model_spec
    match st.providers.lookup pm.1 with
    | none => (false, st)
    | some _ => setTextModelCore (switch_provider st pm.1).2 pm.2
  else setTextModelCore st model_spec

/-- Python falsy-or on two optional strings: model or current_model. -/
def pyOptOr (a b : Option String) : Option String :=
  match a with
  | some s => if s.isEmpty then b else some s
  | none => b

/-- The Python truthiness test "if not model" applied to the resolved
model: both a missing and an empty model id raise. -/
def truthyModel (o : Option String) : Option String :=
  match o with
  | some s => if s.isEmpty then none else some s
  | none => none

/-- manager.py lines 247-291, generate_text.  adapterGen abstracts the
current adapter's generate_text applied to the resolved model (prompt,
token limit and temperature are threaded through it).  The state result
carries the usage statistics, updated only on the success path; every
raise leaves the state as received. -/
def manager_generate_text
    (adapterGen : String → Except ProviderErr GenerationResult)
    (st : ManagerState) (modelArg : Option String) :
    Except ProviderErr GenerationResult × ManagerState :=
  match getCurrentProvider st with
  | none =>
    (Except.error (ProviderErr.providerError "활성화된 AI 제공업체가 없습니다." none), st)
  | some _ =>
    match truthyModel (pyOptOr modelArg st.current_text_model) with
    | none =>
      (Except.error (ProviderErr.unsupportedModel "설정된 텍스트 모델이 없습니다." none), st)
    | some model =>
      match adapterGen model with
      | Except.ok r =>
        (Except.ok r, { st with usage_stats := updateUsageStats st "text" r.tokens_used r.cost })
      | Except.error e =>
        (Except.error (ProviderErr.providerError ("텍스트 생성 실패: " ++ e.message) st.current_provider), st)

/-- manager.py lines 293-325, generate_embeddings; adapterEmb abstracts
the current adapter's generate_embeddings applied to the resolved model
(the texts are threaded through it). -/
def manager_generate_embeddings
    (adapterEmb : String → Except ProviderErr EmbeddingResult)
    (st : ManagerState) (modelArg : Option String) :
    Except ProviderErr EmbeddingResult × ManagerState :=
  match getCurrentProvider st with
  | none =>
    (Except.error (ProviderErr.providerError "활성화된 AI 제공업체가 없습니다." none), st)
  | some _ =>
    match truthyModel (pyOptOr modelArg st.current_embedding_model) with
    | none =>
      (Except.error (ProviderErr.unsupportedModel "설정된 임베딩 모델이 없습니다." none), st)
    | some model =>
      match adapterEmb model with
      | Except.ok r =>
        (Except.ok r, { st with usage_stats := updateUsageStats st "embedding" r.tokens_used r.cost })
      | Except.error e =>
        (Except.error (ProviderErr.providerError ("임베딩 생성 실패: " ++ e.message) st.current_provider), st)

/-! ## Claim theorems -/

/-- Claim C1: for every question and document selection, if retrieval
returns zero chunks, answer_question returns the fixed no-relevant-
information answer with an empty source list and confidence exactly 0,
and the text-generation step is never entered (false flag), whatever the
generation backend would have answered. -/
theorem answer_question_no_chunks
    (search : String → Option String → Nat → List SChunk)
    (gen : String → Except String String)
    (question : String) (file_name : Option String) (top_k : Nat)
    (h : search question file_name top_k = []) :
    answerQuestion search gen question file_name top_k =
      ({ answer := noInfoAnswer, sources := [], confidence := 0,
         context_used := none }, false) := by
  simp [answerQuestion, h]

/-- Witness for C1: a retrieval oracle with no hits at a concrete query. -/
theorem answer_question_no_chunks_witness :
    answerQuestion (fun _ _ _ => []) (fun _ => Except.ok "generated") "질문" none 3 =
      ({ answer := noInfoAnswer, sources := [], confidence := 0,
         context_used := none }, false) :=
  answer_question_no_chunks _ _ "질문" none 3 rfl

/-- Claim C9: with a non-empty retrieved chunk list, a failing model
invocation makes the synthesizer return the graceful fallback answer
together with the source list computed before the failure (the citation
of every retrieved chunk) and confidence 0.  The synthesizer is a total
function into AnswerData, so no exception reaches the caller. -/
theorem generate_answer_model_failure
    (gen : String → Except String String) (question : String)
    (relevant_chunks : List SChunk) (e : String)
    (_hne : relevant_chunks ≠ [])
    (hfail : gen (buildPrompt question relevant_chunks) = Except.error e) :
    generateAnswerWithAI gen question relevant_chunks =
      { answer := generationFailedAnswer,
        sources := relevant_chunks.map citeOf,
        confidence := 0, context_used := none } := by
  simp [generateAnswerWithAI, hfail]

/-- Witness for C9: one concrete chunk, a backend that always fails. -/
theorem generate_answer_model_failure_witness :
    generateAnswerWithAI (fun _ => Except.error "boom") "질문"
        [{ content := "본문", file_name := "a.pdf", page_number := some 1,
           source := "페이지 1", distance := 1/5 }] =
      { answer := generationFailedAnswer,
        sources := [{ content := "본문", file_name := "a.pdf",
                      page_number := some 1, source := "페이지 1",
                      distance := 1/5 : SChunk }].map citeOf,
        confidence := 0, context_used := none } :=
  generate_answer_model_failure _ "질문" _ "boom" (by simp) rfl

/-- Claim C5: the sanitizer is deterministic.  In this embedding the
sanitizer is a pure function of the filename and of the (deterministic)
md5 digest function it calls, reading no other state, so two calls on
equal inputs yield equal outputs. -/
theorem sanitize_collection_name_deterministic
    (md5hex8 : String → String) (f g : String) (h : f = g) :
    sanitize_collection_name md5hex8 f = sanitize_collection_name md5hex8 g := by
  rw [h]

/-- Witness for C5 at a concrete filename and digest function. -/
theorem sanitize_collection_name_deterministic_witness :
    sanitize_collection_name (fun _ => "abcd1234") "보고서.pdf" =
      sanitize_collection_name (fun _ => "abcd1234") "보고서.pdf" :=
  sanitize_collection_name_deterministic (fun _ => "abcd1234") _ _ rfl

/-- Claim C7: a generation or embedding request on an initialized adapter
naming a model absent from the static catalog of the required capability
type is rejected with UnsupportedModelError, and the network endpoint is
not invoked (false flag), whatever the endpoint would have returned. -/
theorem adapter_rejects_unsupported_model
    (net : String → Nat → ℚ → NetOutcome NetChatResponse)
    (netE : String → NetOutcome NetEmbResponse)
    (st : OpenAIAdapterState)
    (modelArg modelArgE : Option String) (maxT : Option Nat) (temp : Option ℚ)
    (hinit : st.is_initialized = true)
    (htext : (AVAILABLE_MODELS.filter (fun m => m.type == "text")).any
        (fun m => m.id == pyStrOr modelArg st.default_model) = false)
    (hemb : (EMBEDDING_MODELS.filter (fun m => m.type == "embedding")).find?
        (fun m => m.id == pyStrOr modelArgE st.default_embedding_model) = none) :
    adapter_generate_text net st modelArg maxT temp =
      (Except.error (ProviderErr.unsupportedModel
        ("지원되지 않는 모델입니다: " ++ pyStrOr modelArg st.default_model)
        (some "openai")), false)
    ∧ adapter_generate_embeddings netE st modelArgE =
      (Except.error (ProviderErr.unsupportedModel
        ("지원되지 않는 임베딩 모델입니다: " ++ pyStrOr modelArgE st.default_embedding_model)
        (some "openai")), false) := by
  constructor
  · simp [adapter_generate_text, hinit, htext]
  · simp [adapter_generate_embeddings, hinit, hemb]

/-- Witness for C7: an initialized adapter asked for a bogus text model
and a bogus embedding model. -/
theorem adapter_rejects_unsupported_model_witness :
    adapter_generate_text (fun _ _ _ => NetOutcome.failed "down")
        { is_initialized := true, default_model := "gpt-3.5-turbo",
          default_embedding_model := "text-embedding-ada-002",
          max_tokens := 1000, temperature := 7/10 }
        (some "bogus-model") none none =
      (Except.error (ProviderErr.unsupportedModel
        ("지원되지 않는 모델입니다: " ++ pyStrOr (some "bogus-model") "gpt-3.5-turbo")
        (some "openai")), false)
    ∧ adapter_generate_embeddings (fun _ => NetOutcome.failed "down")
        { is_initialized := true, default_model := "gpt-3.5-turbo",
          default_embedding_model := "text-embedding-ada-002",
          max_tokens := 1000, temperature := 7/10 }
        (some "bogus-embedding") =
      (Except.error (ProviderErr.unsupportedModel
        ("지원되지 않는 임베딩 모델입니다: " ++ pyStrOr (some "bogus-embedding") "text-embedding-ada-002")
        (some "openai")), false) :=
  adapter_rejects_unsupported_model _ _ _ _ _ _ _ rfl (by decide) (by decide)

/-- The total text-request counter really moves on a text update: the
success path is observably a statistics update. -/
theorem updateUsageStats_text_total (st : ManagerState) (tokens : Nat) (cost : ℚ) :
    (updateUsageStats st "text" tokens cost).total_text_requests =
      st.usage_stats.total_text_requests + 1 := by
  unfold updateUsageStats
  cases st.current_provider with
  | none => simp
  | some p =>
    simp
    split <;> rfl

/-- The total embedding-request counter really moves on an embedding
update. -/
theorem updateUsageStats_embedding_total (st : ManagerState) (tokens : Nat) (cost : ℚ) :
    (updateUsageStats st "embedding" tokens cost).total_embedding_requests =
      st.usage_stats.total_embedding_requests + 1 := by
  unfold updateUsageStats
  cases st.current_provider with
  | none => simp
  | some p =>
    simp
    split <;> rfl

/-- Claim C3: manager generate_text and generate_embeddings update the
usage statistics exactly when the adapter call succeeds: every failure
path (no active provider, no model set, adapter error) returns the state
unchanged, and the success path installs exactly the _update_usage_stats
result, visibly incrementing the matching request counter. -/
theorem usage_stats_updated_iff_success
    (adapterGen : String → Except ProviderErr GenerationResult)
    (adapterEmb : String → Except ProviderErr EmbeddingResult)
    (st : ManagerState) (modelArg modelArgE : Option String) :
    (∀ e, (manager_generate_text adapterGen st modelArg).1 = Except.error e →
        (manager_generate_text adapterGen st modelArg).2 = st)
    ∧ (∀ r, (manager_generate_text adapterGen st modelArg).1 = Except.ok r →
        (manager_generate_text adapterGen st modelArg).2.usage_stats =
          updateUsageStats st "text" r.tokens_used r.cost
        ∧ (manager_generate_text adapterGen st modelArg).2.usage_stats.total_text_requests =
          st.usage_stats.total_text_requests + 1)
    ∧ (∀ e, (manager_generate_embeddings adapterEmb st modelArgE).1 = Except.error e →
        (manager_generate_embeddings adapterEmb st modelArgE).2 = st)
    ∧ (∀ r, (manager_generate_embeddings adapterEmb st modelArgE).1 = Except.ok r →
        (manager_generate_embeddings adapterEmb st modelArgE).2.usage_stats =
          updateUsageStats st "embedding" r.tokens_used r.cost
        ∧ (manager_generate_embeddings adapterEmb st modelArgE).2.usage_stats.total_embedding_requests =
          st.usage_stats.total_embedding_requests + 1) := by
  refine ⟨?_, ?_, ?_, ?_⟩
  · intro e he
    unfold manager_generate_text at he ⊢
    split at he
    · rfl
    · split at he
      · rfl
      · split at he
        · simp at he
        · rfl
  · intro r hr
    unfold manager_generate_text at hr ⊢
    split at hr
    · simp at hr
    · split at hr
      · simp at hr
      · split at hr
        · rename_i r0 heq
          simp at hr
          subst hr
          exact ⟨rfl, updateUsageStats_text_total st _ _⟩
        · simp at hr
  · intro e he
    unfold manager_generate_embeddings at he ⊢
    split at he
    · rfl
    · split at he
      · rfl
      · split at he
        · simp at he
        · rfl
  · intro r hr
    unfold manager_generate_embeddings at hr ⊢
    split at hr
    · simp at hr
    · split at hr
      · simp at hr
      · split at hr
        · rename_i r0 heq
          simp at hr
          subst hr
          exact ⟨rfl, updateUsageStats_embedding_total st _ _⟩
        · simp at hr

/-- Witness for C3: a state with a current provider and model and an
always-failing adapter leaves the state untouched; the same state with a
succeeding adapter installs the update. -/
theorem usage_stats_updated_iff_success_witness :
    (manager_generate_text (fun _ => Except.error (ProviderErr.rateLimit "제한" (some "openai")))
        { providers := [("openai", { available := true, models := openaiAllModels })],
          current_provider := some "openai",
          current_text_model := some "gpt-4",
          current_embedding_model := some "text-embedding-ada-002",
          usage_stats := { total_text_requests := 0, total_embedding_requests := 0,
                           total_tokens_used := 0, total_cost := 0,
                           provider_stats := [("openai",
                             { text_requests := 0, embedding_requests := 0,
                               tokens_used := 0, cost := 0 })] } }
        none).2 =
      { providers := [("openai", { available := true, models := openaiAllModels })],
        current_provider := some "openai",
        current_text_model := some "gpt-4",
        current_embedding_model := some "text-embedding-ada-002",
        usage_stats := { total_text_requests := 0, total_embedding_requests := 0,
                         total_tokens_used := 0, total_cost := 0,
                         provider_stats := [("openai",
                           { text_requests := 0, embedding_requests := 0,
                             tokens_used := 0, cost := 0 })] } } :=
  (usage_stats_updated_iff_success
      (fun _ => Except.error (ProviderErr.rateLimit "제한" (some "openai")))
      (fun _ => Except.error (ProviderErr.rateLimit "제한" (some "openai")))
      _ none none).1 _ rfl

/-- Claim C2, part of the proof: the retrieval result is the sorted,
truncated concatenation; its length never exceeds top_k. -/
theorem search_length_le
    (query : String → Nat → List SChunk) (active : List (String × String))
    (file_name : Option String) (top_k : Nat) :
    (searchRelevantChunks query active file_name top_k).length ≤ top_k := by
  unfold searchRelevantChunks
  simp [List.length_take]

/-- Claim C2: with any per-collection query oracle, any set of active
documents and top_k at least 1, retrieval returns at most top_k results,
sorted by ascending distance, equivalently by non-increasing similarity;
and with no target document it is exactly the per-index budgeted
concatenation (max 1 (top_k / numberOfActiveDocuments) hits requested
from each active index), sorted by ascending distance and truncated to
top_k. -/
theorem search_topk_bound_sorted
    (query : String → Nat → List SChunk) (active : List (String × String))
    (file_name : Option String) (top_k : Nat) (_h : 1 ≤ top_k) :
    (searchRelevantChunks query active file_name top_k).length ≤ top_k
    ∧ (searchRelevantChunks query active file_name top_k).Sorted chunkLE
    ∧ (searchRelevantChunks query active file_name top_k).Sorted
        (fun a b => chunkSimilarity b ≤ chunkSimilarity a)
    ∧ (file_name = none →
        searchRelevantChunks query active file_name top_k =
          (List.insertionSort chunkLE
            ((active.map (fun p => query p.2 (max 1 (top_k / active.length)))).flatten)).take top_k) := by
  have hsorted : (searchRelevantChunks query active file_name top_k).Sorted chunkLE := by
    unfold searchRelevantChunks
    exact List.Pairwise.sublist (List.take_sublist _ _) (List.sorted_insertionSort chunkLE _)
  refine ⟨search_length_le query active file_name top_k, hsorted, ?_, ?_⟩
  · refine hsorted.imp ?_
    intro a b hab
    simp only [chunkSimilarity]
    have : a.distance ≤ b.distance := hab
    linarith
  · intro hf
    subst hf
    rfl

/-- Witness for C2 at a concrete oracle, collection list and budget. -/
theorem search_topk_bound_sorted_witness :
    (searchRelevantChunks
        (fun _ _ => [{ content := "x", file_name := "a.pdf", page_number := some 1,
                       source := "페이지 1", distance := 1/2 }])
        [("a.pdf", "doc_a")] none 3).length ≤ 3
    ∧ (searchRelevantChunks
        (fun _ _ => [{ content := "x", file_name := "a.pdf", page_number := some 1,
                       source := "페이지 1", distance := 1/2 }])
        [("a.pdf", "doc_a")] none 3).Sorted chunkLE
    ∧ (searchRelevantChunks
        (fun _ _ => [{ content := "x", file_name := "a.pdf", page_number := some 1,
                       source := "페이지 1", distance := 1/2 }])
        [("a.pdf", "doc_a")] none 3).Sorted
        (fun a b => chunkSimilarity b ≤ chunkSimilarity a)
    ∧ ((none : Option String) = none →
        searchRelevantChunks
          (fun _ _ => [{ content := "x", file_name := "a.pdf", page_number := some 1,
                         source := "페이지 1", distance := 1/2 }])
          [("a.pdf", "doc_a")] none 3 =
          (List.insertionSort chunkLE
            (([("a.pdf", "doc_a")].map (fun p =>
              (fun (_ : String) (_ : Nat) =>
                [{ content := "x", file_name := "a.pdf", page_number := some 1,
                   source := "페이지 1", distance := 1/2 : SChunk }]) p.2
                (max 1 (3 / [("a.pdf", "doc_a")].length)))).flatten)).take 3) :=
  search_topk_bound_sorted _ _ none 3 (by decide)

/-- A concrete manager state: the openai provider registered and current,
with the text model legitimately set to gpt-4 and zeroed usage counters. -/
def c8State : ManagerState :=
  { providers := [("openai", { available := true, models := openaiAllModels })],
    current_provider := some "openai",
    current_text_model := some "gpt-4",
    current_embedding_model := some "text-embedding-ada-002",
    usage_stats := { total_text_requests := 0, total_embedding_requests := 0,
                     total_tokens_used := 0, total_cost := 0,
                     provider_stats := [("openai",
                       { text_requests := 0, embedding_requests := 0,
                         tokens_used := 0, cost := 0 })] } }

/-- Counterexample to claim C8: a provider:model composite naming a
registered provider but an uncatalogued model makes set_text_model return
false, yet the current text model has been reset (gpt-4 became
gpt-3.5-turbo) because switch_provider runs before model validation. -/
theorem set_text_model_composite_mutates :
    (set_text_model c8State "openai:bogus-model").1 = false
    ∧ c8State.current_text_model = some "gpt-4"
    ∧ (set_text_model c8State "openai:bogus-model").2.current_text_model = some "gpt-3.5-turbo"
    ∧ (set_text_model c8State "openai:bogus-model").2.current_text_model ≠ c8State.current_text_model := by
  refine ⟨rfl, rfl, rfl, by decide⟩

/-- Claim C8 as amended: the state-preservation property holds for the
two failure paths that precede any provider switch.  A bare model id
absent from the current provider's text catalog, and a provider:model
composite naming an unregistered provider, both make set_text_model
return false with the manager state entirely unchanged.  A composite
naming a registered provider instead switches the provider (resetting
the default models) before validation, as witnessed by the
counterexample. -/
theorem set_text_model_fail_frame (st : ManagerState) (spec : String) :
    (spec.toList.contains ':' = false →
      Option.all (fun info =>
        (info.models.filter (fun m => m.type == "text" && m.id == spec)).isEmpty)
        (getCurrentProvider st) = true →
      set_text_model st spec = (false, st))
    ∧ (spec.toList.contains ':' = true →
      st.providers.lookup (splitColon1 spec).1 = none →
      set_text_model st spec = (false, st)) := by
  constructor
  · intro hnc hmiss
    unfold set_text_model
    rw [hnc]
    simp only [Bool.false_eq_true, if_false]
    unfold setTextModelCore
    cases hc : getCurrentProvider st with
    | none => rfl
    | some info =>
      rw [hc] at hmiss
      simp only [Option.all_some] at hmiss
      simp [hmiss]
  · intro hcolon hlook
    unfold set_text_model
    rw [hcolon]
    simp only [if_true]
    rw [hlook]

/-- Witness for the amended C8: a bare unknown model id on the concrete
state leaves everything untouched. -/
theorem set_text_model_fail_frame_witness :
    set_text_model c8State "nonexistent-model" = (false, c8State) :=
  (set_text_model_fail_frame c8State "nonexistent-model").1 (by decide) (by decide)

/-- Membership from getLast?. -/
theorem mem_of_getLastEq {α : Type} (l : List α) (a : α)
    (h : l.getLast? = some a) : a ∈ l := by
  cases l with
  | nil => simp at h
  | cons x xs =>
    have hx := List.getLast?_eq_getLast (x :: xs) (by simp)
    rw [hx] at h
    simp at h
    rw [← h]
    exact List.getLast_mem _

/-- Rejoining the pieces of splitDotSpace with the separator appended to
each reconstructs the text followed by one separator. -/
theorem splitDotSpace_join : ∀ cs : List Char,
    ((splitDotSpace cs).map (fun s => s ++ dotSpace)).flatten = cs ++ dotSpace
  | [] => by simp [splitDotSpace]
  | [c] => by simp [splitDotSpace]
  | c :: d :: rest => by
    rw [splitDotSpace]
    by_cases h : (c = '.' && d = ' ') = true
    · rw [if_pos h]
      simp only [Bool.and_eq_true, decide_eq_true_eq] at h
      obtain ⟨hc, hd⟩ := h
      subst hc; subst hd
      have ih := splitDotSpace_join rest
      simp only [List.map_cons, List.flatten_cons, ih]
      simp [dotSpace]
    · rw [if_neg h]
      have ih := splitDotSpace_join (d :: rest)
      cases hs : splitDotSpace (d :: rest) with
      | nil =>
        rw [hs] at ih
        simp [dotSpace] at ih
      | cons h0 t0 =>
        rw [hs] at ih
        simp only [consFirst, List.map_cons, List.flatten_cons] at ih ⊢
        simp only [List.cons_append, List.append_assoc] at ih ⊢
        rw [ih]

/-- splitDotSpace always yields at least one piece (Python split never
returns an empty list). -/
theorem splitDotSpace_ne_nil (cs : List Char) : splitDotSpace cs ≠ [] := by
  cases cs with
  | nil => simp [splitDotSpace]
  | cons c tail =>
    cases tail with
    | nil => simp [splitDotSpace]
    | cons d rest =>
      rw [splitDotSpace]
      by_cases h : (c = '.' && d = ' ') = true
      · rw [if_pos h]
        simp
      · rw [if_neg h]
        cases splitDotSpace (d :: rest) <;> simp [consFirst]

/-- Unfolding interDotSpace on a cons with a non-empty remainder. -/
theorem interDotSpace_cons (s : List Char) (L : List (List Char)) (hL : L ≠ []) :
    interDotSpace (s :: L) = s ++ dotSpace ++ interDotSpace L := by
  cases L with
  | nil => exact absurd rfl hL
  | cons r rs => rfl

/-- interDotSpace commutes with extending the first piece. -/
theorem interDotSpace_consFirst (c : Char) (L : List (List Char)) (hL : L ≠ []) :
    interDotSpace (consFirst c L) = c :: interDotSpace L := by
  cases L with
  | nil => exact absurd rfl hL
  | cons x t =>
    cases t with
    | nil => simp [consFirst, interDotSpace]
    | cons y ts => simp [consFirst, interDotSpace]

/-- Python's split-then-join identity: rejoining the pieces of
splitDotSpace with the separator between them reconstructs the text. -/
theorem splitDotSpace_inter : ∀ cs : List Char,
    interDotSpace (splitDotSpace cs) = cs
  | [] => by simp [splitDotSpace, interDotSpace]
  | [c] => by simp [splitDotSpace, interDotSpace]
  | c :: d :: rest => by
    rw [splitDotSpace]
    by_cases h : (c = '.' && d = ' ') = true
    · rw [if_pos h]
      simp only [Bool.and_eq_true, decide_eq_true_eq] at h
      obtain ⟨hc, hd⟩ := h
      subst hc; subst hd
      rw [interDotSpace_cons [] (splitDotSpace rest) (splitDotSpace_ne_nil rest)]
      rw [splitDotSpace_inter rest]
      simp [dotSpace]
    · rw [if_neg h]
      rw [interDotSpace_consFirst c (splitDotSpace (d :: rest)) (splitDotSpace_ne_nil (d :: rest))]
      rw [splitDotSpace_inter (d :: rest)]

/-- The accumulation loop flushes nothing when the rejoined remaining
text fits in the chunk budget: each comparison value current plus
sentence is a prefix of current plus the rejoined remainder, so the
flush condition never fires and everything accumulates into the current
chunk (which ends up two characters longer than the rejoined text, but
is never compared again). -/
theorem splitChunksLoop_no_overflow (S : Nat) (sentences : List (List Char)) :
    ∀ (chunks : List (List Char)) (current : List Char),
      (current ++ interDotSpace sentences).length ≤ S →
      splitChunksLoop S sentences chunks current =
        (chunks, current ++ ((sentences.map (fun s => s ++ dotSpace)).flatten)) := by
  induction sentences with
  | nil =>
    intro chunks current h
    simp [splitChunksLoop]
  | cons s rest ih =>
    intro chunks current h
    have hsp : s.length ≤ (interDotSpace (s :: rest)).length := by
      cases rest with
      | nil => simp [interDotSpace]
      | cons r rs =>
        simp only [interDotSpace, List.length_append]
        omega
    have hfit : (current ++ s).length ≤ S := by
      simp only [List.length_append] at h ⊢
      omega
    rw [splitChunksLoop]
    have hcond : (decide (S < (current ++ s).length) && !current.isEmpty) = false := by
      have hdec : decide (S < (current ++ s).length) = false :=
        decide_eq_false (Nat.not_lt.mpr hfit)
      rw [hdec, Bool.false_and]
    rw [hcond]
    simp only [Bool.false_eq_true, if_false]
    cases rest with
    | nil =>
      rw [splitChunksLoop]
      simp [List.append_assoc]
    | cons r rs =>
      have h2 : ((current ++ s ++ dotSpace) ++ interDotSpace (r :: rs)).length ≤ S := by
        rw [interDotSpace_cons s (r :: rs) (by simp)] at h
        simp only [List.length_append, dotSpace, List.length_cons, List.length_nil] at h ⊢
        omega
      rw [ih chunks (current ++ s ++ dotSpace) h2]
      simp [List.append_assoc]

/-- Stripping after appending the dot-space separator to a text with no
leading whitespace leaves the text with one appended dot: the trailing
space is stripped, the dot is kept. -/
theorem pyStrip_append_dotSpace (cs : List Char)
    (h1 : cs.dropWhile pyIsSpace = cs) :
    pyStrip (cs ++ dotSpace) = cs ++ ['.'] := by
  unfold pyStrip dropTrailing dotSpace
  have hd : (cs ++ ['.', ' ']).dropWhile pyIsSpace = cs ++ ['.', ' '] := by
    rw [List.dropWhile_append]
    by_cases hcs : (cs.dropWhile pyIsSpace).isEmpty = true
    · rw [if_pos hcs]
      rw [h1] at hcs
      have : cs = [] := List.isEmpty_iff.mp hcs
      subst this
      decide
    · rw [if_neg hcs, h1]
  rw [hd]
  have hrev : (cs ++ ['.', ' ']).reverse = ' ' :: '.' :: cs.reverse := by
    rw [List.reverse_append]
    rfl
  rw [hrev]
  rw [List.dropWhile_cons]
  have hsp : pyIsSpace ' ' = true := by decide
  have hdot : pyIsSpace '.' = false := by decide
  rw [hsp]
  simp only [if_true]
  rw [List.dropWhile_cons, hdot]
  simp only [Bool.false_eq_true, if_false]
  simp

/-- A text with no leading or trailing whitespace (Python strip is the
identity on it) in particular has no leading whitespace. -/
theorem dropWhile_eq_self_of_pyStrip_eq (cs : List Char)
    (h : pyStrip cs = cs) : cs.dropWhile pyIsSpace = cs := by
  have hsuffix : cs.dropWhile pyIsSpace <:+ cs := List.dropWhile_suffix _
  have hlen2 : (pyStrip cs).length ≤ (cs.dropWhile pyIsSpace).length := by
    unfold pyStrip dropTrailing
    rw [List.length_reverse]
    have h5 := (@List.dropWhile_sublist Char
      ((cs.dropWhile pyIsSpace).reverse) pyIsSpace).length_le
    simpa using h5
  have hlen3 : (cs.dropWhile pyIsSpace).length ≤ cs.length :=
    (List.dropWhile_sublist _).length_le
  have hlen4 : (pyStrip cs).length = cs.length := by rw [h]
  exact hsuffix.eq_of_length (by omega)

/-- Counterexample to claim C6: the already-short, trimmed, non-empty
text Hello (length 5, chunk size 500) is not returned unchanged by
_split_page_text; the splitter re-appends the sentence delimiter and
returns the single chunk Hello-dot. -/
theorem split_page_text_not_identity :
    pyStrip "Hello".toList = "Hello".toList
    ∧ "Hello".length ≤ 500
    ∧ splitPageText "Hello" 500 = ["Hello."]
    ∧ splitPageText "Hello" 500 ≠ ["Hello"] := by
  refine ⟨rfl, by decide, rfl, by decide⟩

/-- Claim C6 as amended: on text T that is non-empty, has no leading or
trailing whitespace (possibly with interior sentence breaks) and fits in
the chunk size, _split_page_text returns a single chunk, but that chunk
is T with one dot appended (the splitter re-appends the dot-space
separator after every split sentence and then strips the chunk), not T
itself.  Every length the loop compares against the chunk size is that
of a prefix of T, so the original bound length T at most S suffices.
The separator-based splitter of _split_text_into_chunks delegates to an
external library and is out of scope of this embedding. -/
theorem split_page_text_short (T : String) (S : Nat)
    (_hne : T.toList ≠ [])
    (htrim : pyStrip T.toList = T.toList)
    (hlen : T.length ≤ S) :
    splitPageText T S = [T ++ "."] := by
  unfold splitPageText
  have hjoin := splitDotSpace_join T.toList
  have hfits : (([] : List Char) ++ interDotSpace (splitDotSpace T.toList)).length ≤ S := by
    rw [List.nil_append, splitDotSpace_inter]
    exact hlen
  dsimp only
  rw [splitChunksLoop_no_overflow S (splitDotSpace T.toList) [] [] hfits]
  dsimp only
  rw [List.nil_append, hjoin]
  rw [pyStrip_append_dotSpace T.toList (dropWhile_eq_self_of_pyStrip_eq T.toList htrim)]
  have hne2 : (T.toList ++ ['.']).isEmpty = false := by
    simp
  rw [hne2]
  simp only [Bool.false_eq_true, if_false, List.nil_append, List.map_cons, List.map_nil]
  have : (T.toList ++ ['.']).asString = T ++ "." := by
    cases T with
    | mk data => exact String.ext rfl
  rw [this]

/-- Witness for the amended C6 on a concrete two-sentence text at the
exact boundary where the text length equals the chunk size. -/
theorem split_page_text_short_witness :
    splitPageText "ab. cd" 6 = ["ab. cd" ++ "."] :=
  split_page_text_short "ab. cd" 6 (by decide) (by decide) (by decide)

/-! ## Character-class and sanitizer-pipeline lemmas -/

/-- Every character produced by the substitution step is in the allowed
class. -/
theorem isAllowedChar_subChar (c : Char) : isAllowedChar (subChar c) = true := by
  unfold subChar
  by_cases h : isAllowedChar c = true
  · rw [if_pos h]; exact h
  · rw [if_neg h]; decide

/-- A lowercase hex digit is alphanumeric. -/
theorem isHexChar_alnum (c : Char) (h : isHexChar c = true) : isAlnumChar c = true := by
  unfold isHexChar at h
  have h2 : c ∈ "0123456789abcdef".toList := by simpa using h
  fin_cases h2 <;> decide

/-- A lowercase hex digit is in the allowed class. -/
theorem isHexChar_allowed (c : Char) (h : isHexChar c = true) : isAllowedChar c = true := by
  unfold isHexChar at h
  have h2 : c ∈ "0123456789abcdef".toList := by simpa using h
  fin_cases h2 <;> decide

/-- An allowed character is never a newline. -/
theorem isAllowedChar_ne_newline (c : Char) (h : isAllowedChar c = true) :
    c ≠ '\n' := by
  intro he
  subst he
  exact absurd h (by decide)

/-- Collapsing underscores only removes characters. -/
theorem collapseUnd_subset : ∀ l : List Char, ∀ c ∈ collapseUnd l, c ∈ l
  | [] => by simp [collapseUnd]
  | [c0] => by simp [collapseUnd]
  | c0 :: d :: rest => by
    intro c hc
    rw [collapseUnd] at hc
    by_cases h : (c0 = '_' && d = '_') = true
    · rw [if_pos h] at hc
      exact List.mem_cons_of_mem c0 (collapseUnd_subset (d :: rest) c hc)
    · rw [if_neg h] at hc
      rcases List.mem_cons.mp hc with h1 | h2
      · exact h1 ▸ List.mem_cons_self _ _
      · exact List.mem_cons_of_mem c0 (collapseUnd_subset (d :: rest) c h2)

/-- Dropping trailing characters only removes characters. -/
theorem dropTrailing_subset (p : Char → Bool) (l : List Char) :
    ∀ c ∈ dropTrailing p l, c ∈ l := by
  intro c hc
  unfold dropTrailing at hc
  rw [List.mem_reverse] at hc
  have h2 := (List.dropWhile_sublist p).subset hc
  rw [List.mem_reverse] at h2
  exact h2

/-- Stripping underscores only removes characters. -/
theorem stripUnd_subset (l : List Char) : ∀ c ∈ stripUnd l, c ∈ l := by
  intro c hc
  unfold stripUnd at hc
  exact (List.dropWhile_sublist _).subset (dropTrailing_subset _ _ c hc)

/-- Every character of the sanitized core is in the allowed class. -/
theorem sanitizeCore_allowed (f : String) :
    ∀ c ∈ sanitizeCore f, isAllowedChar c = true := by
  intro c hc
  unfold sanitizeCore at hc
  have h2 := collapseUnd_subset _ c (stripUnd_subset _ c hc)
  rcases List.mem_map.mp h2 with ⟨a, _, ha⟩
  rw [← ha]
  exact isAllowedChar_subChar a

/-- The final validation passes on any candidate made of the doc tag, a
newline-free middle and a non-empty tail whose last character is
alphanumeric. -/
theorem finalCheckOk_docTag_append (mid H : List Char) (hH : H ≠ [])
    (hlast : ∀ c, H.getLast? = some c → isAlnumChar c = true)
    (hmid : ∀ c ∈ mid, c ≠ '\n') (hHn : ∀ c ∈ H, c ≠ '\n') :
    finalCheckOk (docTag ++ mid ++ H) = true := by
  obtain ⟨d, hd⟩ : ∃ d, H.getLast? = some d :=
    ⟨H.getLast hH, List.getLast?_eq_getLast H hH⟩
  have hshape : docTag ++ mid ++ H = 'd' :: ('o' :: 'c' :: '_' :: mid ++ H) := by
    simp [docTag]
  rw [hshape, finalCheckOk]
  have hgl : ('o' :: 'c' :: '_' :: mid ++ H).getLast? = some d := by
    have := List.getLast?_append_of_ne_nil ('o' :: 'c' :: '_' :: mid) hH
    rw [show 'o' :: 'c' :: '_' :: mid ++ H = ('o' :: 'c' :: '_' :: mid) ++ H from rfl]
    rw [this, hd]
  rw [hgl]
  simp only [Bool.and_eq_true]
  refine ⟨⟨by decide, hlast d hd⟩, ?_⟩
  rw [List.all_eq_true]
  intro x hx
  have hx2 : x ∈ 'o' :: 'c' :: '_' :: mid ++ H :=
    (List.dropLast_sublist _).subset hx
  have hxne : x ≠ '\n' := by
    simp only [List.cons_append, List.mem_cons, List.mem_append] at hx2
    rcases hx2 with rfl | rfl | rfl | hm | hh2
    · decide
    · decide
    · decide
    · exact hmid x hm
    · exact hHn x hh2
  simpa using hxne

/-- What a passed final validation guarantees: the first and last
characters exist and are alphanumeric. -/
theorem finalCheckOk_extract (cs : List Char) (h : finalCheckOk cs = true) :
    (∃ c, cs.head? = some c ∧ isAlnumChar c = true)
    ∧ (∃ d, cs.getLast? = some d ∧ isAlnumChar d = true) := by
  cases cs with
  | nil => simp [finalCheckOk] at h
  | cons c rest =>
    rw [finalCheckOk] at h
    cases hg : rest.getLast? with
    | none => rw [hg] at h; simp at h
    | some d =>
      rw [hg] at h
      simp only [Bool.and_eq_true] at h
      refine ⟨⟨c, rfl, h.1.1⟩, ⟨d, ?_, h.1.2⟩⟩
      cases rest with
      | nil => simp at hg
      | cons e tl => rw [List.getLast?_cons_cons]; exact hg

/-- The final validation passes on the truncation shape doc tag plus
50-character truncation plus underscore plus hex tail. -/
theorem finalCheckOk_truncated (core H : List Char)
    (hcore : ∀ c ∈ core, isAllowedChar c = true)
    (hH : H ≠ []) (hhexH : ∀ c ∈ H, isHexChar c = true) :
    finalCheckOk (docTag ++ (docTag ++ core).take 50 ++ '_' :: H) = true := by
  have hlast : ∀ c, H.getLast? = some c → isAlnumChar c = true := by
    intro c hc
    exact isHexChar_alnum c (hhexH c (mem_of_getLastEq _ c hc))
  have hmid : ∀ c ∈ (docTag ++ core).take 50 ++ ['_'], c ≠ '\n' := by
    intro c hc
    rcases List.mem_append.mp hc with h1 | h2
    · have h4 := (List.take_sublist 50 (docTag ++ core)).subset h1
      rcases List.mem_append.mp h4 with h5 | h6
      · simp only [docTag, List.mem_cons, List.not_mem_nil, or_false] at h5
        rcases h5 with rfl | rfl | rfl | rfl <;> decide
      · exact isAllowedChar_ne_newline c (hcore c h6)
    · simp only [List.mem_singleton] at h2
      subst h2
      decide
  have hHn : ∀ c ∈ H, c ≠ '\n' := by
    intro c hc
    exact isAllowedChar_ne_newline c (isHexChar_allowed c (hhexH c hc))
  have hfc0 := finalCheckOk_docTag_append ((docTag ++ core).take 50 ++ ['_']) H hH hlast hmid hHn
  have hsame : docTag ++ ((docTag ++ core).take 50 ++ ['_']) ++ H
      = docTag ++ (docTag ++ core).take 50 ++ '_' :: H := by
    simp [List.append_assoc]
  rw [hsame] at hfc0
  exact hfc0

/-- Claim C4: when the sanitized core is long (the code branch fires for
every core longer than 96 characters, since the doc_-prefixed form then
exceeds 100), the result is the doc_-prefixed 50-character truncation of
the doc_-prefixed sanitized form, followed by an underscore and the
8-hex-character digest of the original name; the final validation always
passes on this shape. -/
theorem sanitize_collection_name_long (md5hex8 : String → String) (f : String)
    (hh : HashOk md5hex8) (hlong : 96 < (sanitizeCore f).length) :
    sanitize_collection_name md5hex8 f =
      (docTag ++ (docTag ++ sanitizeCore f).take 50 ++ '_' :: (md5hex8 f).toList).asString
    ∧ (md5hex8 f).toList.length = 8
    ∧ ∀ c ∈ (md5hex8 f).toList, isHexChar c = true := by
  obtain ⟨hlen8, hhex⟩ := hh f
  refine ⟨?_, hlen8, hhex⟩
  unfold sanitize_collection_name
  dsimp only
  have h3 : ¬ (sanitizeCore f).length < 3 := by omega
  rw [if_neg h3]
  have h100 : 100 < (docTag ++ sanitizeCore f).length := by
    simp only [List.length_append, docTag, List.length_cons, List.length_nil]
    omega
  rw [if_pos h100]
  have hH : (md5hex8 f).toList ≠ [] := by
    intro he
    rw [he] at hlen8
    simp at hlen8
  have hfc := finalCheckOk_truncated (sanitizeCore f) (md5hex8 f).toList
    (sanitizeCore_allowed f) hH hhex
  rw [hfc]
  simp

/-- Witness for C4: a 120-character filename of letter a, with a fixed
8-hex digest function. -/
theorem sanitize_collection_name_long_witness :
    sanitize_collection_name (fun _ => "abcd1234") (String.mk (List.replicate 120 'a')) =
      (docTag ++ (docTag ++ sanitizeCore (String.mk (List.replicate 120 'a'))).take 50
        ++ '_' :: ("abcd1234").toList).asString
    ∧ ("abcd1234").toList.length = 8
    ∧ ∀ c ∈ ("abcd1234").toList, isHexChar c = true :=
  sanitize_collection_name_long (fun _ => "abcd1234") (String.mk (List.replicate 120 'a'))
    (by
      intro s
      show ("abcd1234" : String).toList.length = 8
        ∧ ∀ c ∈ ("abcd1234" : String).toList, isHexChar c = true
      exact ⟨by decide, by decide⟩)
    (by decide)

/-- The five invariant properties for any result of the shape doc tag
followed by an allowed tail with an alphanumeric last character. -/
theorem sanitized_props (tail : List Char)
    (hallow : ∀ c ∈ tail, isAllowedChar c = true)
    (hlast : ∃ c, (docTag ++ tail).getLast? = some c ∧ isAlnumChar c = true) :
    ((docTag ++ tail).asString.toList.all isAllowedChar = true)
    ∧ (docTag ++ tail).asString.toList.take 3 = ['d', 'o', 'c']
    ∧ (∃ c, (docTag ++ tail).asString.toList.head? = some c ∧ isAlnumChar c = true)
    ∧ (∃ c, (docTag ++ tail).asString.toList.getLast? = some c ∧ isAlnumChar c = true)
    ∧ 3 ≤ (docTag ++ tail).asString.length := by
  have hts : (docTag ++ tail).asString.toList = docTag ++ tail := rfl
  rw [hts]
  refine ⟨?_, rfl, ⟨'d', rfl, by decide⟩, hlast, ?_⟩
  · rw [List.all_eq_true]
    intro x hx
    rcases List.mem_append.mp hx with h1 | h2
    · simp only [docTag, List.mem_cons, List.not_mem_nil, or_false] at h1
      rcases h1 with rfl | rfl | rfl | rfl <;> decide
    · exact hallow x h2
  · show 3 ≤ (docTag ++ tail).length
    simp [docTag]

/-- Claim C10: for every filename (and every digest function meeting the
md5-hexdigest interface), the sanitized collection name uses only
characters from the allowed class, starts with doc, begins and ends with
an ASCII alphanumeric character, and has length at least 3. -/
theorem sanitize_collection_name_invariant (md5hex8 : String → String)
    (hh : HashOk md5hex8) (f : String) :
    ((sanitize_collection_name md5hex8 f).toList.all isAllowedChar = true)
    ∧ (sanitize_collection_name md5hex8 f).toList.take 3 = ['d', 'o', 'c']
    ∧ (∃ c, (sanitize_collection_name md5hex8 f).toList.head? = some c ∧ isAlnumChar c = true)
    ∧ (∃ c, (sanitize_collection_name md5hex8 f).toList.getLast? = some c ∧ isAlnumChar c = true)
    ∧ 3 ≤ (sanitize_collection_name md5hex8 f).length := by
  obtain ⟨hlen8, hhex⟩ := hh f
  have hH : (md5hex8 f).toList ≠ [] := by
    intro he
    rw [he] at hlen8
    simp at hlen8
  have hHallow : ∀ c ∈ (md5hex8 f).toList, isAllowedChar c = true :=
    fun c hc => isHexChar_allowed c (hhex c hc)
  have hHlast : ∃ c, (docTag ++ (md5hex8 f).toList).getLast? = some c ∧ isAlnumChar c = true := by
    obtain ⟨d, hd⟩ : ∃ d, (md5hex8 f).toList.getLast? = some d :=
      ⟨(md5hex8 f).toList.getLast hH, List.getLast?_eq_getLast _ hH⟩
    refine ⟨d, ?_, isHexChar_alnum d (hhex d (mem_of_getLastEq _ d hd))⟩
    rw [List.getLast?_append_of_ne_nil docTag hH, hd]
  have hfall := sanitized_props (md5hex8 f).toList hHallow hHlast
  unfold sanitize_collection_name
  dsimp only
  by_cases h3 : (sanitizeCore f).length < 3
  · rw [if_pos h3]
    have h100f : ¬ 100 < (docTag ++ (md5hex8 f).toList).length := by
      simp only [List.length_append, docTag, List.length_cons, List.length_nil, hlen8]
      omega
    rw [if_neg h100f]
    rw [ite_self]
    exact hfall
  · rw [if_neg h3]
    by_cases h100 : 100 < (docTag ++ sanitizeCore f).length
    · rw [if_pos h100]
      have hfc := finalCheckOk_truncated (sanitizeCore f) (md5hex8 f).toList
        (sanitizeCore_allowed f) hH hhex
      rw [hfc]
      rw [if_pos rfl]
      set tail := (docTag ++ sanitizeCore f).take 50 ++ '_' :: (md5hex8 f).toList with htail
      have hassoc : docTag ++ (docTag ++ sanitizeCore f).take 50 ++ '_' :: (md5hex8 f).toList
          = docTag ++ tail := by
        rw [htail, List.append_assoc]
      rw [hassoc]
      have htallow : ∀ c ∈ tail, isAllowedChar c = true := by
        intro c hc
        rw [htail] at hc
        rcases List.mem_append.mp hc with h1 | h2
        · have h4 := (List.take_sublist 50 (docTag ++ sanitizeCore f)).subset h1
          rcases List.mem_append.mp h4 with h5 | h6
          · simp only [docTag, List.mem_cons, List.not_mem_nil, or_false] at h5
            rcases h5 with rfl | rfl | rfl | rfl <;> decide
          · exact sanitizeCore_allowed f c h6
        · simp only [List.mem_cons] at h2
          rcases h2 with rfl | h7
          · decide
          · exact hHallow c h7
      have htlast : ∃ c, (docTag ++ tail).getLast? = some c ∧ isAlnumChar c = true := by
        obtain ⟨d, hd⟩ : ∃ d, (md5hex8 f).toList.getLast? = some d :=
          ⟨(md5hex8 f).toList.getLast hH, List.getLast?_eq_getLast _ hH⟩
        refine ⟨d, ?_, isHexChar_alnum d (hhex d (mem_of_getLastEq _ d hd))⟩
        rw [htail]
        rw [List.getLast?_append_of_ne_nil docTag (by simp)]
        rw [List.getLast?_append_of_ne_nil _ (List.cons_ne_nil _ _)]
        rw [show ('_' :: (md5hex8 f).toList) = ['_'] ++ (md5hex8 f).toList from rfl]
        rw [List.getLast?_append_of_ne_nil _ hH, hd]
      exact sanitized_props tail htallow htlast
    · rw [if_neg h100]
      by_cases hfc : finalCheckOk (docTag ++ sanitizeCore f) = true
      · rw [if_pos hfc]
        exact sanitized_props (sanitizeCore f) (sanitizeCore_allowed f)
          (finalCheckOk_extract _ hfc).2
      · rw [if_neg hfc]
        exact hfall

/-- Witness for C10 at a concrete filename and digest function. -/
theorem sanitize_collection_name_invariant_witness :
    ((sanitize_collection_name (fun _ => "abcd1234") "보고서 2024.pdf").toList.all isAllowedChar = true)
    ∧ (sanitize_collection_name (fun _ => "abcd1234") "보고서 2024.pdf").toList.take 3 = ['d', 'o', 'c']
    ∧ (∃ c, (sanitize_collection_name (fun _ => "abcd1234") "보고서 2024.pdf").toList.head? = some c
        ∧ isAlnumChar c = true)
    ∧ (∃ c, (sanitize_collection_name (fun _ => "abcd1234") "보고서 2024.pdf").toList.getLast? = some c
        ∧ isAlnumChar c = true)
    ∧ 3 ≤ (sanitize_collection_name (fun _ => "abcd1234") "보고서 2024.pdf").length :=
  sanitize_collection_name_invariant (fun _ => "abcd1234")
    (by
      intro s
      show ("abcd1234" : String).toList.length = 8
        ∧ ∀ c ∈ ("abcd1234" : String).toList, isHexChar c = true
      exact ⟨by decide, by decide⟩)
    "보고서 2024.pdf"

end PdfLearner
